import Mathlib

/-!
Verification of `icons/create_icons.py` from bluehawk-api-key-finder.

The script produces three PNG icons (sizes 16, 48, 128): it tries to
rasterize `icon.svg` via cairosvg and falls back to drawing a hawk icon
procedurally with PIL.  We embed the script shallowly:

* `create_hawk_icon_pil` builds an in-memory RGBA image by folding a
  fixed sequence of drawing commands over a transparent canvas, exactly
  mirroring the sequence of PIL draw calls in the source.
* Pixel coverage of the PIL primitives (rounded rectangle, polygon,
  ellipse, rectangle) is modelled geometrically with exact integer
  arithmetic; the spec itself (design notes) declares the precise
  rasterization library-dependent, and no theorem below depends on the
  exact boundary behaviour of these primitives.
* Python computes scaled coordinates as `int(k * (size / 128))` with
  float arithmetic; for the three sizes in use (16, 48, 128) the float
  results are exact, so we embed the scaling as exact natural division
  `k * size / 128` (truncation).  Likewise `int(size * 0.19)` agrees
  with `size * 19 / 100` at these sizes.
* `main` is embedded as a function of the two environment facts it
  branches on (cairosvg importable?  icon.svg present?) returning a
  record of the observable effects (which path ran, which files were
  written, what the vector path returned).
-/

namespace CreateIcons

/-- An RGBA pixel value `(r, g, b, a)`, each channel 0–255. -/
abbrev RGBA := Nat × Nat × Nat × Nat

/-- The three icon sizes, `sizes = [16, 48, 128]` in the source. -/
def SIZES : List Nat := [16, 48, 128]

/-- Scaled coordinate `int(k * s)` with `s = size / 128`.  For the sizes in
`SIZES` the Python float computation is exact, so truncating natural
division embeds it faithfully. -/
def iscale (size k : Nat) : Nat := k * size / 128

/-- Background corner radius `int(size * 0.19)`; exact at the sizes in
`SIZES`. -/
def bgRadius (size : Nat) : Nat := size * 19 / 100

/-- Eye centre x-coordinate `int(82*s)`. -/
def eye_x (size : Nat) : Nat := iscale size 82

/-- Eye centre y-coordinate `int(38*s)`. -/
def eye_y (size : Nat) : Nat := iscale size 38

/-- Eye radius `max(2, int(4*s))`. -/
def eye_r (size : Nat) : Nat := max 2 (iscale size 4)

/-- Key ring centre y-coordinate `int(95*s)`. -/
def key_y (size : Nat) : Nat := iscale size 95

/-- Key ring centre x-coordinate `int(25*s)`. -/
def key_x (size : Nat) : Nat := iscale size 25

/-- Key ring radius `max(3, int(8*s))`. -/
def key_r (size : Nat) : Nat := max 3 (iscale size 8)

/-- Key ring outline width / shaft half-width `max(2, int(3*s))`. -/
def key_w (size : Nat) : Nat := max 2 (iscale size 3)

/-- Key shaft start x-coordinate `key_x + key_r`. -/
def shaft_start (size : Nat) : Nat := key_x size + key_r size

/-- Key shaft end x-coordinate `int(65*s)`. -/
def shaft_end (size : Nat) : Nat := iscale size 65

/-- Key tooth width `max(2, int(3*s))`. -/
def tooth_w (size : Nat) : Nat := max 2 (iscale size 3)

/-- Key tooth height `max(3, int(6*s))`. -/
def tooth_h (size : Nat) : Nat := max 3 (iscale size 6)

/-- The hard-coded head polygon vertices in the normalized 128-unit space. -/
def normHeadPoints : List (Nat × Nat) :=
  [(85, 30), (100, 45), (90, 55), (75, 50), (65, 40), (70, 28)]

/-- The hard-coded body polygon vertices in the normalized 128-unit space. -/
def normBodyPoints : List (Nat × Nat) :=
  [(65, 40), (50, 55), (45, 75), (55, 90), (80, 85), (90, 70), (85, 55), (75, 50)]

/-- `head_points` as computed in the source: each normalized coordinate
scaled by `size/128` and truncated. -/
def head_points (size : Nat) : List (Int × Int) :=
  [((iscale size 85 : Int), (iscale size 30 : Int)),
   ((iscale size 100 : Int), (iscale size 45 : Int)),
   ((iscale size 90 : Int), (iscale size 55 : Int)),
   ((iscale size 75 : Int), (iscale size 50 : Int)),
   ((iscale size 65 : Int), (iscale size 40 : Int)),
   ((iscale size 70 : Int), (iscale size 28 : Int))]

/-- `body_points` as computed in the source. -/
def body_points (size : Nat) : List (Int × Int) :=
  [((iscale size 65 : Int), (iscale size 40 : Int)),
   ((iscale size 50 : Int), (iscale size 55 : Int)),
   ((iscale size 45 : Int), (iscale size 75 : Int)),
   ((iscale size 55 : Int), (iscale size 90 : Int)),
   ((iscale size 80 : Int), (iscale size 85 : Int)),
   ((iscale size 90 : Int), (iscale size 70 : Int)),
   ((iscale size 85 : Int), (iscale size 55 : Int)),
   ((iscale size 75 : Int), (iscale size 50 : Int))]

/-- A PIL drawing primitive together with its geometric parameters
(bounding boxes `[x0, y0, x1, y1]`, vertex lists, outline width). -/
inductive Shape where
  | roundedRect (x0 y0 x1 y1 r : Int)
  | polygon (pts : List (Int × Int))
  | ellipseFill (x0 y0 x1 y1 : Int)
  | ellipseOutline (x0 y0 x1 y1 w : Int)
  | rectangle (x0 y0 x1 y1 : Int)

/-- One PIL draw call: a shape painted in a single colour. -/
structure Cmd where
  shape : Shape
  color : RGBA

/-- Membership of a pixel in the box `[x0, y0, x1, y1]` (inclusive, as in
PIL). -/
def inBox (x0 y0 x1 y1 : Int) (p : Int × Int) : Bool :=
  decide (x0 ≤ p.1) && decide (p.1 ≤ x1) && decide (y0 ≤ p.2) && decide (p.2 ≤ y1)

/-- Distance of coordinate `v` past the straight (non-corner) span of the
rounded rectangle along one axis. -/
def cornerGap (lo hi r v : Int) : Int := max 0 (max (lo + r - v) (v - (hi - r)))

/-- Geometric model of `draw.rounded_rectangle`: inside the box and, in a
corner region, within distance `r` of the corner circle centre. -/
def coversRoundedRect (x0 y0 x1 y1 r : Int) (p : Int × Int) : Bool :=
  inBox x0 y0 x1 y1 p &&
    (let dx := cornerGap x0 x1 r p.1
     let dy := cornerGap y0 y1 r p.2
     decide (dx * dx + dy * dy ≤ r * r))

/-- Geometric model of a filled `draw.ellipse` inscribed in the box. -/
def insideEllipse (x0 y0 x1 y1 : Int) (p : Int × Int) : Bool :=
  let w := x1 - x0
  let h := y1 - y0
  let dx := 2 * p.1 - (x0 + x1)
  let dy := 2 * p.2 - (y0 + y1)
  decide (dx * dx * h * h + dy * dy * w * w ≤ w * w * h * h)

/-- Does the edge from `a` to `b` cross the horizontal ray extending right
from `p`?  (Exact integer form of the standard even–odd crossing test.) -/
def crossesRay (p a b : Int × Int) : Bool :=
  if a.2 ≤ p.2 ∧ p.2 < b.2 then
    decide ((p.1 - a.1) * (b.2 - a.2) < (p.2 - a.2) * (b.1 - a.1))
  else if b.2 ≤ p.2 ∧ p.2 < a.2 then
    decide ((p.2 - a.2) * (b.1 - a.1) < (p.1 - a.1) * (b.2 - a.2))
  else
    false

/-- The closed edge list of a polygon given by its vertices. -/
def polygonEdges (pts : List (Int × Int)) : List ((Int × Int) × (Int × Int)) :=
  pts.zip (pts.drop 1 ++ pts.take 1)

/-- Geometric model of a filled `draw.polygon`: even–odd ray casting. -/
def coversPolygon (pts : List (Int × Int)) (p : Int × Int) : Bool :=
  ((polygonEdges pts).countP (fun e => crossesRay p e.1 e.2)) % 2 == 1

/-- Pixel coverage of each drawing primitive. -/
def covers : Shape → (Int × Int) → Bool
  | .roundedRect x0 y0 x1 y1 r, p => coversRoundedRect x0 y0 x1 y1 r p
  | .polygon pts, p => coversPolygon pts p
  | .ellipseFill x0 y0 x1 y1, p => insideEllipse x0 y0 x1 y1 p
  | .ellipseOutline x0 y0 x1 y1 w, p =>
      insideEllipse x0 y0 x1 y1 p &&
        !(insideEllipse (x0 + w) (y0 + w) (x1 - w) (y1 - w) p)
  | .rectangle x0 y0 x1 y1, p => inBox x0 y0 x1 y1 p

/-- An in-memory image: dimensions plus pixel contents. -/
structure Img where
  width : Nat
  height : Nat
  pixelAt : Int × Int → RGBA

/-- `Image.new('RGBA', (size, size), (0, 0, 0, 0))`: a fully transparent
square canvas. -/
def Image_new (size : Nat) : Img :=
  { width := size, height := size, pixelAt := fun _ => (0, 0, 0, 0) }

/-- Execute one draw call: pixels covered by the shape take its colour,
all others keep their previous value. -/
def drawCmd (img : Img) (c : Cmd) : Img :=
  { img with pixelAt := fun p => if covers c.shape p then c.color else img.pixelAt p }

/-- Background fill `'#1e3a5f'` as RGBA. -/
def backgroundColor : RGBA := (30, 58, 95, 255)

/-- Hawk silhouette fill `'#f59e0b'` as RGBA. -/
def hawk_color : RGBA := (245, 158, 11, 255)

/-- Eye fill `'#0d1b2a'` as RGBA. -/
def eyeColor : RGBA := (13, 27, 42, 255)

/-- Key fill `'#22c55e'` as RGBA. -/
def key_color : RGBA := (34, 197, 94, 255)

/-- Draw call 1: `draw.rounded_rectangle([0, 0, size-1, size-1], radius, fill)`. -/
def bgCmd (size : Nat) : Cmd :=
  ⟨.roundedRect 0 0 ((size : Int) - 1) ((size : Int) - 1) (bgRadius size), backgroundColor⟩

/-- Draw call 2: `draw.polygon(head_points, fill=hawk_color)`. -/
def headCmd (size : Nat) : Cmd := ⟨.polygon (head_points size), hawk_color⟩

/-- Draw call 3: `draw.polygon(body_points, fill=hawk_color)`. -/
def bodyCmd (size : Nat) : Cmd := ⟨.polygon (body_points size), hawk_color⟩

/-- Draw call 4: the filled eye ellipse. -/
def eyeCmd (size : Nat) : Cmd :=
  ⟨.ellipseFill ((eye_x size : Int) - eye_r size) ((eye_y size : Int) - eye_r size)
      ((eye_x size : Int) + eye_r size) ((eye_y size : Int) + eye_r size), eyeColor⟩

/-- Draw call 5: the outlined key ring ellipse. -/
def ringCmd (size : Nat) : Cmd :=
  ⟨.ellipseOutline ((key_x size : Int) - key_r size) ((key_y size : Int) - key_r size)
      ((key_x size : Int) + key_r size) ((key_y size : Int) + key_r size) (key_w size), key_color⟩

/-- Draw call 6: the filled key shaft rectangle. -/
def shaftCmd (size : Nat) : Cmd :=
  ⟨.rectangle (shaft_start size) ((key_y size : Int) - key_w size)
      (shaft_end size) ((key_y size : Int) + key_w size), key_color⟩

/-- Draw call 7: the first key tooth rectangle. -/
def tooth1Cmd (size : Nat) : Cmd :=
  ⟨.rectangle ((shaft_end size : Int) - tooth_w size * 3)
      ((key_y size : Int) - key_w size - tooth_h size)
      ((shaft_end size : Int) - tooth_w size * 2)
      ((key_y size : Int) - key_w size), key_color⟩

/-- Draw call 8: the second key tooth rectangle. -/
def tooth2Cmd (size : Nat) : Cmd :=
  ⟨.rectangle ((shaft_end size : Int) - tooth_w size)
      ((key_y size : Int) - key_w size - tooth_h size)
      ((shaft_end size : Int))
      ((key_y size : Int) - key_w size), key_color⟩

/-- The eight draw calls of `create_hawk_icon_pil` in source order. -/
def hawkCmds (size : Nat) : List Cmd :=
  [bgCmd size, headCmd size, bodyCmd size, eyeCmd size,
   ringCmd size, shaftCmd size, tooth1Cmd size, tooth2Cmd size]

/-- `create_hawk_icon_pil(size)`: a transparent canvas followed by the
eight draw calls, in the source's order. -/
def create_hawk_icon_pil (size : Nat) : Img :=
  let img0 := Image_new size
  let img1 := drawCmd img0 (bgCmd size)
  let img2 := drawCmd img1 (headCmd size)
  let img3 := drawCmd img2 (bodyCmd size)
  let img4 := drawCmd img3 (eyeCmd size)
  let img5 := drawCmd img4 (ringCmd size)
  let img6 := drawCmd img5 (shaftCmd size)
  let img7 := drawCmd img6 (tooth1Cmd size)
  drawCmd img7 (tooth2Cmd size)

/-- Ambient run environment (wall clock, RNG state).  The source consults
neither, so no definition below depends on it; it exists so determinism
can be stated as a property rather than assumed. -/
structure Env where
  clock : Nat
  randomSeed : Nat

/-- Output file name `f'icon{size}.png'`. -/
def iconFileName (size : Nat) : String := "icon" ++ toString size ++ ".png"

/-- `create_icons_with_pil()`: returns `True` after writing one
procedurally drawn image per size. -/
def create_icons_with_pil (_e : Env) : Bool × List (String × Img) :=
  (true, SIZES.map (fun size => (iconFileName size, create_hawk_icon_pil size)))

/-- `create_icons_from_svg()`, as a function of whether `icon.svg` exists:
returns (normally, no exception) `False` having written nothing when the
file is missing, and `True` having written the three rasterized files
otherwise. -/
def create_icons_from_svg (svgExists : Bool) : Except String (Bool × List String) :=
  if svgExists then .ok (true, SIZES.map iconFileName) else .ok (false, [])

/-- Observable effects of one run of `main()`. -/
structure RunResult where
  vectorRan : Bool
  vectorReturned : Option Bool
  vectorFiles : List String
  proceduralRan : Bool
  pilFiles : List (String × Img)

/-- `main()`, as a function of cairosvg availability, `icon.svg` presence,
and the ambient environment. -/
def main (hasCairosvg svgExists : Bool) (e : Env) : Except String RunResult :=
  if hasCairosvg then
    match create_icons_from_svg svgExists with
    | .error msg => .error msg
    | .ok (success, vfiles) =>
      if success then
        .ok ⟨true, some true, vfiles, false, []⟩
      else
        .ok ⟨true, some false, vfiles, true, (create_icons_with_pil e).2⟩
  else
    .ok ⟨false, none, [], true, (create_icons_with_pil e).2⟩

/-- Projection of a run's effects to decidable data (file names only). -/
def obs (r : Except String RunResult) :
    Except String (Bool × Option Bool × List String × Bool × List String) :=
  r.map (fun x => (x.vectorRan, x.vectorReturned, x.vectorFiles, x.proceduralRan,
    x.pilFiles.map Prod.fst))

/-- The spec's formula for a scaled vertex: truncation to integer of
`(x * size/128, y * size/128)`. -/
def truncScale (size : Nat) (q : Nat × Nat) : Int × Int :=
  ((⌊((q.1 : ℚ) * size) / 128⌋₊ : Int), (⌊((q.2 : ℚ) * size) / 128⌋₊ : Int))

/-- Well-formedness of a primitive's bounding box: `x0 ≤ x1 ∧ y0 ≤ y1`
(polygons carry no box). -/
def boxWF : Shape → Bool
  | .roundedRect x0 y0 x1 y1 _ => decide (x0 ≤ x1) && decide (y0 ≤ y1)
  | .polygon _ => true
  | .ellipseFill x0 y0 x1 y1 => decide (x0 ≤ x1) && decide (y0 ≤ y1)
  | .ellipseOutline x0 y0 x1 y1 _ => decide (x0 ≤ x1) && decide (y0 ≤ y1)
  | .rectangle x0 y0 x1 y1 => decide (x0 ≤ x1) && decide (y0 ≤ y1)

/-- All coordinates a primitive is drawn from (box corners or vertices). -/
def shapeCoords : Shape → List (Int × Int)
  | .roundedRect x0 y0 x1 y1 _ => [(x0, y0), (x1, y1)]
  | .polygon pts => pts
  | .ellipseFill x0 y0 x1 y1 => [(x0, y0), (x1, y1)]
  | .ellipseOutline x0 y0 x1 y1 _ => [(x0, y0), (x1, y1)]
  | .rectangle x0 y0 x1 y1 => [(x0, y0), (x1, y1)]

/-- Is a coordinate pair within the canvas `[0, size-1] × [0, size-1]`? -/
def inCanvas (size : Nat) (p : Int × Int) : Bool :=
  decide (0 ≤ p.1) && decide (p.1 ≤ (size : Int) - 1) &&
    decide (0 ≤ p.2) && decide (p.2 ≤ (size : Int) - 1)

theorem mem_SIZES {size : Nat} (h : size ∈ SIZES) :
    size = 16 ∨ size = 48 ∨ size = 128 := by
  simpa [SIZES] using h

theorem iscale_cast_eq (size k : Nat) :
    ((iscale size k : Nat) : Int) = ((⌊((k : ℚ) * size) / 128⌋₊ : Nat) : Int) := by
  have h1 : ((k : ℚ) * size) = ((k * size : Nat) : ℚ) := by push_cast; ring
  have h2 : ((128 : ℚ)) = ((128 : Nat) : ℚ) := by norm_num
  rw [h1, h2, Nat.floor_div_eq_div]
  rfl

theorem bgRadius_eq_floor (size : Nat) :
    bgRadius size = ⌊((19 : ℚ) / 100) * size⌋₊ := by
  have h1 : ((19 : ℚ) / 100) * size = ((size * 19 : Nat) : ℚ) / ((100 : Nat) : ℚ) := by
    push_cast; ring
  rw [h1, Nat.floor_div_eq_div]
  rfl

/-- Claim C1: if cairosvg is unavailable the procedural path runs directly;
if it is available but `icon.svg` is missing, the vector path reports
failure and the procedural path then runs; if both are present the vector
path writes all three icons and the procedural path never executes. -/
theorem main_dispatch (e : Env) :
    (∀ svg : Bool, obs (main false svg e) =
      .ok (false, none, [], true, SIZES.map iconFileName)) ∧
    obs (main true false e) =
      .ok (true, some false, [], true, SIZES.map iconFileName) ∧
    obs (main true true e) =
      .ok (true, some true, SIZES.map iconFileName, false, []) :=
  ⟨fun _ => rfl, rfl, rfl⟩

/-- Claim C2: for each size in 16, 48, 128 the procedural path starts from
an RGBA canvas of dimensions size × size that is fully transparent, and
the image recorded under `icon{size}.png` has width = height = size. -/
theorem canvas_transparent_and_sized (size : Nat) (h : size ∈ SIZES)
    (p : Int × Int) (e : Env) :
    (Image_new size).pixelAt p = (0, 0, 0, 0) ∧
    (iconFileName size, create_hawk_icon_pil size) ∈ (create_icons_with_pil e).2 ∧
    (create_hawk_icon_pil size).width = size ∧
    (create_hawk_icon_pil size).height = size := by
  refine ⟨rfl, ?_, rfl, rfl⟩
  exact List.mem_map_of_mem (fun s => (iconFileName s, create_hawk_icon_pil s)) h

theorem canvas_transparent_and_sized_witness :
    16 ∈ SIZES ∧
    ((Image_new 16).pixelAt (0, 0) = (0, 0, 0, 0) ∧
     (iconFileName 16, create_hawk_icon_pil 16) ∈ (create_icons_with_pil ⟨0, 0⟩).2 ∧
     (create_hawk_icon_pil 16).width = 16 ∧
     (create_hawk_icon_pil 16).height = 16) :=
  ⟨by decide, canvas_transparent_and_sized 16 (by decide) (0, 0) ⟨0, 0⟩⟩

/-- Claim C3: at every size in 16, 48, 128 the clamped minimums hold: eye
radius ≥ 2, key-ring radius ≥ 3, key outline width ≥ 2, tooth width ≥ 2,
tooth height ≥ 3. -/
theorem clamped_minimums (size : Nat) (h : size ∈ SIZES) :
    2 ≤ eye_r size ∧ 3 ≤ key_r size ∧ 2 ≤ key_w size ∧
    2 ≤ tooth_w size ∧ 3 ≤ tooth_h size := by
  rcases mem_SIZES h with rfl | rfl | rfl <;> exact ⟨by decide, by decide, by decide, by decide, by decide⟩

theorem clamped_minimums_witness :
    16 ∈ SIZES ∧
    (2 ≤ eye_r 16 ∧ 3 ≤ key_r 16 ∧ 2 ≤ key_w 16 ∧
     2 ≤ tooth_w 16 ∧ 3 ≤ tooth_h 16) :=
  ⟨by decide, clamped_minimums 16 (by decide)⟩

/-- Claim C4: at every size in 16, 48, 128, each hard-coded normalized
vertex `(x, y)` is drawn at the truncation to integer of
`(x * size/128, y * size/128)`. -/
theorem vertex_scaling (size : Nat) (h : size ∈ SIZES) :
    head_points size = normHeadPoints.map (truncScale size) ∧
    body_points size = normBodyPoints.map (truncScale size) := by
  refine ⟨?_, ?_⟩ <;>
    simp only [head_points, body_points, normHeadPoints, normBodyPoints,
      truncScale, List.map, iscale_cast_eq]

theorem vertex_scaling_witness :
    16 ∈ SIZES ∧
    (head_points 16 = normHeadPoints.map (truncScale 16) ∧
     body_points 16 = normBodyPoints.map (truncScale 16)) :=
  ⟨by decide, vertex_scaling 16 (by decide)⟩

/-- Claim C5 counterexample: at size 128 the corner radius actually used is
`bgRadius 128 = 24`, which is not `0.19 × 128 = 24.32`; the claim's
"corner radius equal to 0.19 × size" fails because the code truncates. -/
theorem bg_radius_not_exact :
    bgCmd 128 = ⟨.roundedRect 0 0 127 127 (bgRadius 128), backgroundColor⟩ ∧
    bgRadius 128 = 24 ∧ ((bgRadius 128 : ℚ) ≠ (19 / 100 : ℚ) * 128) := by
  refine ⟨rfl, by decide, ?_⟩
  norm_num [bgRadius]

/-- Claim C5 (amended): at every size in 16, 48, 128 the background is a
rounded rectangle over the whole canvas box `[0, 0, size-1, size-1]` with
corner radius the truncation of `0.19 × size`, filled `#1e3a5f`, and both
silhouette polygons are filled `#f59e0b`. -/
theorem background_and_colors (size : Nat) (h : size ∈ SIZES) :
    bgCmd size = ⟨.roundedRect 0 0 ((size : Int) - 1) ((size : Int) - 1)
      (bgRadius size), backgroundColor⟩ ∧
    bgRadius size = ⌊((19 : ℚ) / 100) * size⌋₊ ∧
    backgroundColor = (30, 58, 95, 255) ∧
    (headCmd size).color = hawk_color ∧ (bodyCmd size).color = hawk_color ∧
    hawk_color = (245, 158, 11, 255) :=
  ⟨rfl, bgRadius_eq_floor size, rfl, rfl, rfl, rfl⟩

theorem background_and_colors_witness :
    16 ∈ SIZES ∧
    (bgCmd 16 = ⟨.roundedRect 0 0 ((16 : Int) - 1) ((16 : Int) - 1)
       (bgRadius 16), backgroundColor⟩ ∧
     bgRadius 16 = ⌊((19 : ℚ) / 100) * 16⌋₊ ∧
     backgroundColor = (30, 58, 95, 255) ∧
     (headCmd 16).color = hawk_color ∧ (bodyCmd 16).color = hawk_color ∧
     hawk_color = (245, 158, 11, 255)) :=
  ⟨by decide, background_and_colors 16 (by decide)⟩

/-- Claim C6: the run's output does not depend on the ambient environment
(clock, RNG): two runs under the same capability availability and input
presence produce identical results, image contents included. -/
theorem deterministic_output (e1 e2 : Env) (has svg : Bool) :
    main has svg e1 = main has svg e2 ∧
    create_icons_with_pil e1 = create_icons_with_pil e2 := by
  cases has <;> cases svg <;> exact ⟨rfl, rfl⟩

/-- Claim C7: with `icon.svg` absent, `create_icons_from_svg` returns
`False` normally (no exception) having written no file, and `main` then
runs the procedural fallback, which writes the three icons. -/
theorem missing_svg_nonfatal (e : Env) :
    create_icons_from_svg false = .ok (false, []) ∧
    obs (main true false e) =
      .ok (true, some false, [], true, SIZES.map iconFileName) :=
  ⟨rfl, rfl⟩

/-- Claim C8: the procedural path is exactly the fold of the fixed
z-ordered command list — background, head, body, eye, ring, shaft, then
the two teeth — over the blank canvas. -/
theorem draw_order (size : Nat) :
    create_hawk_icon_pil size = (hawkCmds size).foldl drawCmd (Image_new size) ∧
    hawkCmds size = [bgCmd size, headCmd size, bodyCmd size, eyeCmd size,
      ringCmd size, shaftCmd size, tooth1Cmd size, tooth2Cmd size] :=
  ⟨rfl, rfl⟩

/-- Claim C9: at every size in 16, 48, 128 the procedurally drawn image has
a pixel of nonzero alpha (it is not fully transparent). -/
theorem fallback_nonempty (size : Nat) (h : size ∈ SIZES) :
    ∃ p : Int × Int, ((create_hawk_icon_pil size).pixelAt p).2.2.2 ≠ 0 := by
  rcases mem_SIZES h with rfl | rfl | rfl
  · exact ⟨(8, 8), by decide⟩
  · exact ⟨(24, 24), by decide⟩
  · exact ⟨(64, 64), by decide⟩

theorem fallback_nonempty_witness :
    16 ∈ SIZES ∧ (∃ p : Int × Int, ((create_hawk_icon_pil 16).pixelAt p).2.2.2 ≠ 0) :=
  ⟨by decide, fallback_nonempty 16 (by decide)⟩

/-- Claim C10: at every size in 16, 48, 128 every drawing primitive's box
satisfies `x0 ≤ x1 ∧ y0 ≤ y1` and every coordinate of every drawn shape
lies within `[0, size-1]`; in particular the shaft's start does not
exceed its end. -/
theorem shapes_well_formed (size : Nat) (h : size ∈ SIZES) :
    ((hawkCmds size).all fun c => boxWF c.shape && (shapeCoords c.shape).all (inCanvas size)) = true ∧
    shaft_start size ≤ shaft_end size := by
  rcases mem_SIZES h with rfl | rfl | rfl <;> exact ⟨by decide, by decide⟩

theorem shapes_well_formed_witness :
    16 ∈ SIZES ∧
    (((hawkCmds 16).all fun c => boxWF c.shape && (shapeCoords c.shape).all (inCanvas 16)) = true ∧
     shaft_start 16 ≤ shaft_end 16) :=
  ⟨by decide, shapes_well_formed 16 (by decide)⟩

end CreateIcons
